import Mathlib

/-!
Verification of the RetailMind Lite analytics core against its
natural-language specification.

The development shallowly embeds the four core modules:

* `RetailMind.RiskEngine`    — models/risk_engine.py
* `RetailMind.Forecasting`   — models/forecasting.py (deterministic fallback path)
* `RetailMind.Simulator`     — models/simulator.py
* `RetailMind.Synergy`       — models/synergy_analyzer.py

Python floats are modelled as exact rationals (ℚ) where the code only
performs field operations, and as real numbers (ℝ) where a square root
(standard deviation, Pearson correlation) appears.  A float NaN arising
from a pandas aggregation over an empty window is modelled as `Option`
(`none` = NaN); the Python builtin `max(0, x)`, which returns `0` when
`x` is NaN (because `NaN > 0` is false), is modelled by `pymax0`.
A Python `ZeroDivisionError` is modelled by an `Option`-valued result
(`none` = the call raises).  Definitions whose name matches a Python
function are direct translations of that function; definitions whose
name contains `spec` are written from the wording of the specification
and are compared against the code-derived definitions.
-/

namespace RetailMind

/-! ## Rational list statistics (pandas mean over a window) -/

/-- Mean of a list of rationals; `0` on the empty list.  The junk value for
the empty list is never relied upon: every use either sits under a
non-emptiness guard of the source or is shown to coincide with the
behaviour of the source on the empty window. -/
def qmean (xs : List ℚ) : ℚ := xs.sum / xs.length

/-- The last `n` elements of a list, as in pandas `Series.tail(n)`. -/
def lastN (n : ℕ) (xs : List α) : List α := xs.drop (xs.length - n)

/-- Python `int(q)`: truncation toward zero. -/
def pytrunc (q : ℚ) : ℤ := if q < 0 then -(⌊-q⌋) else ⌊q⌋

namespace RiskEngine

/-! ## models/risk_engine.py -/

/-- One row of the per-product data frame, restricted to the columns the
risk engine reads. -/
structure Row where
  sales : ℚ
  inventory : ℚ
  price : ℚ

def salesOf (w : List Row) : List ℚ := w.map Row.sales

def invOf (w : List Row) : List ℚ := w.map Row.inventory

/-- Translation of `RiskOpportunityEngine._calculate_trend`.  `data` is the
sales column of the window handed to the method; `days` is the period. -/
def calculate_trend (days : ℕ) (data : List ℚ) : ℚ :=
  if data.length < days then 0
  else
    let recent := lastN days data
    let older :=
      if 2 * days ≤ data.length then (data.drop (data.length - 2 * days)).take days
      else data.take days
    if older = [] ∨ qmean older = 0 then 0
    else (qmean recent - qmean older) / qmean older * 100

/-- Modelled from the specification wording of C6, to be compared with
`calculate_trend 7`: the percent change of the mean of units_sold over the
last 7 points versus the preceding 7 points; when the window has fewer
than 14 points the last N versus the first N points of the window (for
the available N) are compared; and the result is 0 whenever the baseline
mean is 0. -/
def trend7Spec (w : List ℚ) : ℚ :=
  if w.length < 14 then
    let n := min 7 w.length
    let baseline := w.take n
    let recent := lastN n w
    if qmean baseline = 0 then 0
    else (qmean recent - qmean baseline) / qmean baseline * 100
  else
    let baseline := (w.drop (w.length - 14)).take 7
    let recent := lastN 7 w
    if qmean baseline = 0 then 0
    else (qmean recent - qmean baseline) / qmean baseline * 100

/-- The metrics dictionary produced by `calculate_metrics`, as consumed by
`classify_product_v2` and `_get_recommended_action`.  The classification
methods accept any metrics values, so the fields are unconstrained. -/
structure Metrics where
  current_avg : ℚ
  trend_7d : ℚ
  volatility : ℚ
  days_of_stock : ℚ
  stockout_risk : ℚ
  price_stability : ℚ

/-- Risk factor accumulation of `classify_product_v2`. -/
def risk_score (m : Metrics) : ℕ :=
  (if m.trend_7d < -10 then 30 else 0) +
  (if m.days_of_stock > 25 then 25 else 0) +
  (if m.stockout_risk > 3/10 then 20 else 0) +
  (if m.volatility > 2/5 then 15 else 0)

/-- Opportunity factor accumulation of `classify_product_v2`. -/
def opportunity_score (m : Metrics) (forecast_growth : ℚ) : ℕ :=
  (if m.trend_7d > 15 then 30 else 0) +
  (if m.days_of_stock < 7 then 25 else 0) +
  (if forecast_growth > 10 then 20 else 0) +
  (if m.volatility < 1/5 ∧ m.trend_7d > 5 then 15 else 0)

/-- First branch of the `actions` table of `_get_recommended_action`, keyed
by category; each entry is the list of candidate action strings of the
source, of which index 0 is returned. -/
def actions (m : Metrics) (category : String) : Option (List String) :=
  if category = "HIGH RISK" then
    some ["Discount by 15-20% to clear " ++
            toString (pytrunc (max 0 (m.days_of_stock - 14))) ++ " excess units",
          "Bundle with trending products",
          "Reduce next order by 30%"]
  else if category = "HIGH OPPORTUNITY" then
    some ["Increase inventory by " ++
            toString (pytrunc (min 50 (m.trend_7d * 2))) ++ "%",
          "Feature in prime display location",
          "Consider slight price increase (3-5%)"]
  else if category = "MODERATE RISK" then
    some ["Monitor closely for 7 days",
          "Prepare discount plan if trend continues",
          "Review supplier terms"]
  else if category = "MODERATE OPPORTUNITY" then
    some ["Increase promotion frequency",
          "Test bundling options",
          "Consider cross-selling"]
  else if category = "NEUTRAL" then
    some ["Maintain current levels",
          "Monitor weekly trends",
          "Check competitor pricing"]
  else none

/-- Translation of `RiskOpportunityEngine._get_recommended_action`:
`actions.get(category, ["Monitor as usual"])[0]`. -/
def get_recommended_action (category : String) (m : Metrics) : String :=
  ((actions m category).getD ["Monitor as usual"]).headD ""

/-- The classification record returned by `classify_product_v2`
(presentation-only fields — emoji icon and the formatted trend text —
are omitted). -/
structure Classification where
  category : String
  color : String
  priority : ℕ
  risk_score : ℕ
  opportunity_score : ℕ
  days_of_stock : ℚ
  stockout_status : String
  stockout_days : ℤ
  recommended_action : String

/-- Translation of `RiskOpportunityEngine.classify_product_v2`.  The single
Python if/elif chain assigns category, color and priority together; it is
rendered as three parallel if-chains over the same conditions. -/
def classify_product_v2 (m : Metrics) (forecast_growth : ℚ) : Classification :=
  let r := risk_score m
  let o := opportunity_score m forecast_growth
  let category :=
    if 60 ≤ r ∧ o < 30 then "HIGH RISK"
    else if 60 ≤ o ∧ r < 30 then "HIGH OPPORTUNITY"
    else if o < r then "MODERATE RISK"
    else if r < o then "MODERATE OPPORTUNITY"
    else "NEUTRAL"
  let color :=
    if 60 ≤ r ∧ o < 30 then "red"
    else if 60 ≤ o ∧ r < 30 then "green"
    else if o < r then "orange"
    else if r < o then "lightgreen"
    else "gray"
  let priority : ℕ :=
    if 60 ≤ r ∧ o < 30 then 1
    else if 60 ≤ o ∧ r < 30 then 1
    else if o < r then 2
    else if r < o then 2
    else 3
  let stockout_status :=
    if m.days_of_stock ≤ 3 then "IMMINENT"
    else if m.days_of_stock ≤ 7 then "SOON"
    else "SAFE"
  { category := category
    color := color
    priority := priority
    risk_score := r
    opportunity_score := o
    days_of_stock := m.days_of_stock
    stockout_status := stockout_status
    stockout_days := pytrunc m.days_of_stock
    recommended_action := get_recommended_action category m }

/-- Modelled from the specification wording of C2: the five category rules
evaluated in the stated order over the two scores. -/
def specCategory (r o : ℕ) : String :=
  if r ≥ 60 ∧ o < 30 then "HIGH RISK"
  else if o ≥ 60 ∧ r < 30 then "HIGH OPPORTUNITY"
  else if r > o then "MODERATE RISK"
  else if o > r then "MODERATE OPPORTUNITY"
  else "NEUTRAL"

/-- Modelled from the specification wording of C2: the priority attached by
the five rules, in the stated order. -/
def specPriority (r o : ℕ) : ℕ :=
  if r ≥ 60 ∧ o < 30 then 1
  else if o ≥ 60 ∧ r < 30 then 1
  else if r > o then 2
  else if o > r then 2
  else 3

end RiskEngine

/-- Concrete metrics record used to exercise the HIGH RISK branch:
risk_score = 30 + 20 + 15 = 65 ≥ 60 and opportunity_score = 0 < 30. -/
def highRiskMetrics : RiskEngine.Metrics :=
  { current_avg := 10
    trend_7d := -20
    volatility := 1/2
    days_of_stock := 20
    stockout_risk := 1/2
    price_stability := 1 }

namespace Simulator

/-! ## models/simulator.py

A Python `ZeroDivisionError` is modelled by an `Option`-valued
simulation: `none` means the call raises. -/

/-- Python division: raises `ZeroDivisionError` on a zero denominator. -/
def pydiv (a b : ℚ) : Option ℚ := if b = 0 then none else some (a / b)

/-- The `price_elasticity` table of `WhatIfSimulator.__init__`, read through
`dict.get(product, 1.0)`. -/
def price_elasticity (product : String) : ℚ :=
  if product = "Milk" then 4/5
  else if product = "Bread" then 6/5
  else if product = "Eggs" then 3/2
  else if product = "Coffee" then 3/5
  else if product = "Bananas" then 9/5
  else if product = "Yogurt" then 13/10
  else if product = "Cereal" then 11/10
  else 1

/-- The `cross_elasticity` table of `WhatIfSimulator.__init__`. -/
def cross_elasticity : List ((String × String) × ℚ) :=
  [(("Milk", "Cereal"), 7/10),
   (("Bread", "Eggs"), 3/5),
   (("Coffee", "Bread"), 2/5),
   (("Eggs", "Bread"), 3/5)]

/-- Translation of `WhatIfSimulator._calculate_cross_effects`: affected
product with its demand change percentage. -/
def calculate_cross_effects (product : String) (price_change_pct : ℚ) :
    List (String × ℚ) :=
  cross_elasticity.filterMap fun e =>
    if e.1.1 = product then some (e.1.2, e.2 * price_change_pct * (1/2)) else none

structure PriceChangeResult where
  product : String
  price_change_pct : ℚ
  demand_change_pct : ℚ
  new_demand : ℚ
  revenue_change_pct : ℚ
  profit_change_pct : ℚ
  recommendation : String
  cross_effects : List (String × ℚ)

/-- Translation of `WhatIfSimulator.simulate_price_change` (the
`forecast_new` local of the source is computed but never returned and is
omitted). -/
def simulate_price_change (product : String)
    (current_price new_price current_demand forecast_demand : ℚ) :
    Option PriceChangeResult := do
  let pc0 ← pydiv (new_price - current_price) current_price
  let price_change_pct := pc0 * 100
  let elasticity := price_elasticity product
  let demand_change_pct := -elasticity * price_change_pct
  let new_demand := current_demand * (1 + demand_change_pct / 100)
  let current_revenue := current_demand * current_price
  let new_revenue := new_demand * new_price
  let rc0 ← pydiv (new_revenue - current_revenue) current_revenue
  let revenue_change_pct := rc0 * 100
  let margin : ℚ := 3/10
  let current_profit := current_demand * current_price * margin
  let new_profit := new_demand * new_price * margin
  let pf0 ← pydiv (new_profit - current_profit) current_profit
  let profit_change_pct := pf0 * 100
  pure
    { product := product
      price_change_pct := price_change_pct
      demand_change_pct := demand_change_pct
      new_demand := new_demand
      revenue_change_pct := revenue_change_pct
      profit_change_pct := profit_change_pct
      recommendation :=
        if profit_change_pct > 0 then "INCREASE"
        else if profit_change_pct < -5 then "DECREASE"
        else "HOLD"
      cross_effects := calculate_cross_effects product price_change_pct }

structure PromotionResult where
  product : String
  discount_pct : ℚ
  duration_days : ℚ
  lift_pct : ℚ
  post_promo_dip : ℚ
  additional_units : ℤ
  promotion_cost : ℚ
  net_profit : ℚ
  roi_pct : ℚ
  recommendation : String

/-- Translation of `WhatIfSimulator.simulate_promotion`.  The sole division
is guarded by `if discount_cost > 0`, so the function is total. -/
def simulate_promotion (product : String)
    (discount_pct duration_days current_demand forecast_demand : ℚ) :
    PromotionResult :=
  let base_lift : ℚ := 20
  let lift_pct := base_lift + discount_pct * (4/5)
  let promo_demand := current_demand * (1 + lift_pct / 100)
  let post_promo_dip := -(3/10) * lift_pct
  let additional_units := (promo_demand - current_demand) * duration_days
  let avg_price : ℚ := 299/100
  let discount_cost := additional_units * avg_price * (discount_pct / 100)
  let margin : ℚ := 3/10
  let incremental_profit := additional_units * avg_price * margin
  let net_profit := incremental_profit - discount_cost
  let roi := if discount_cost > 0 then net_profit / discount_cost * 100 else 0
  { product := product
    discount_pct := discount_pct
    duration_days := duration_days
    lift_pct := lift_pct
    post_promo_dip := post_promo_dip
    additional_units := pytrunc additional_units
    promotion_cost := discount_cost
    net_profit := net_profit
    roi_pct := roi
    recommendation :=
      if roi > 30 then "RUN" else if roi > 10 then "MODIFY" else "AVOID" }

structure InventoryChangeResult where
  product : String
  stock_change_pct : ℚ
  stockout_risk_change : ℚ
  holding_cost_change_pct : ℚ
  lost_sales_risk_pct : ℚ
  net_daily_impact : ℚ
  recommendation : String

/-- Translation of `WhatIfSimulator.simulate_inventory_change`. -/
def simulate_inventory_change (product : String)
    (current_stock_days new_stock_days current_demand : ℚ) :
    Option InventoryChangeResult := do
  let sc0 ← pydiv (new_stock_days - current_stock_days) current_stock_days
  let stock_change_pct := sc0 * 100
  let stockout_risk_reduction :=
    if stock_change_pct > 0 then min 40 (|stock_change_pct| * (4/5)) else 0
  let holding_cost_pct := |stock_change_pct| * (1/2)
  let lost_sales_risk :=
    if stock_change_pct < 0 then min 30 (|stock_change_pct| * (3/5)) else 0
  let avg_price : ℚ := 299/100
  let daily_sales_value := current_demand * avg_price
  let holding_cost_change := daily_sales_value * (holding_cost_pct / 100)
  let lost_sales_value :=
    if stock_change_pct < 0 then daily_sales_value * (lost_sales_risk / 100) else 0
  let net_impact := -holding_cost_change - lost_sales_value
  pure
    { product := product
      stock_change_pct := stock_change_pct
      stockout_risk_change :=
        if stock_change_pct > 0 then -stockout_risk_reduction else 0
      holding_cost_change_pct := holding_cost_pct
      lost_sales_risk_pct := lost_sales_risk
      net_daily_impact := net_impact
      recommendation :=
        if stock_change_pct > 0 ∧ stockout_risk_reduction > 20 then "INCREASE"
        else if stock_change_pct < 0 ∧ holding_cost_pct > 10 then "DECREASE"
        else "HOLD" }

end Simulator

/-! ## Real-valued statistics

pandas `Series.mean` and `Series.std` (the latter with its default
`ddof = 1`).  `rsampleVar`/`rsampleStd` are only consulted on windows of
length ≥ 2 (every theorem below that touches them carries that bound):
on shorter windows pandas yields NaN, which the `Option`-valued wrappers
in `Forecasting` model as `none`. -/

noncomputable def rmean (xs : List ℝ) : ℝ := xs.sum / xs.length

noncomputable def rsampleVar (xs : List ℝ) : ℝ :=
  ((xs.map fun x => (x - rmean xs) ^ 2).sum) / ((xs.length : ℝ) - 1)

noncomputable def rsampleStd (xs : List ℝ) : ℝ := Real.sqrt (rsampleVar xs)

namespace RiskEngine

/-- Real view of the sales column of a window. -/
def salesR (w : List Row) : List ℝ := w.map fun r => ((r.sales : ℝ))

/-- Real view of the inventory column of a window. -/
def invR (w : List Row) : List ℝ := w.map fun r => ((r.inventory : ℝ))

/-- Translation of `RiskOpportunityEngine._calculate_stockout_risk`. -/
noncomputable def calculate_stockout_risk (w : List Row) : ℝ :=
  let sales_std := rsampleStd (salesR w)
  let sales_mean := rmean (salesR w)
  let inventory_mean := rmean (invR w)
  if sales_mean = 0 then 0
  else
    let z_score := (inventory_mean - sales_mean) / (sales_std + 1/1000000)
    max 0 (min 1 (1/2 - (1/5) * z_score))

/-- Modelled from the specification wording of C4:
clamp(0.5 − 0.2·z, 0, 1) with z = (mean(inventory) − mean(sales)) /
(std(sales) + ε), unconditionally — no special case for a zero sales
mean. -/
noncomputable def stockoutSpecFormula (w : List Row) : ℝ :=
  let z := (rmean (invR w) - rmean (salesR w)) / (rsampleStd (salesR w) + 1/1000000)
  max 0 (min 1 (1/2 - (1/5) * z))

/-- A window of three rows with all-zero sales and zero inventory. -/
def zeroWindow : List Row := List.replicate 3 { sales := 0, inventory := 0, price := 1 }

/-- A window of three rows with sales 0, 2, 4 (mean 2, sample std 2) and
constant inventory 3. -/
def stdWindow : List Row :=
  [{ sales := 0, inventory := 3, price := 1 },
   { sales := 2, inventory := 3, price := 1 },
   { sales := 4, inventory := 3, price := 1 }]

end RiskEngine

namespace Forecasting

/-! ## models/forecasting.py

The Prophet primary path is an external library call wrapped in
`try/except`; it is modelled as an oracle (`Option ForecastResult`) that
either yields a result or fails.  The fallback path is translated
line by line.  `np.random.normal(loc, scale)` is modelled as
`loc + scale * g i`, with `g` the sequence of underlying standard normal
draws; a NaN `loc` or `scale` (empty or one-point trailing window)
propagates as `none`. -/

/-- pandas mean: NaN (`none`) on an empty series. -/
noncomputable def rmeanO (xs : List ℝ) : Option ℝ :=
  if xs = [] then none else some (rmean xs)

/-- pandas std with ddof = 1: NaN (`none`) on fewer than two points. -/
noncomputable def rstdO (xs : List ℝ) : Option ℝ :=
  if xs.length < 2 then none else some (rsampleStd xs)

/-- Python `max(0, x)` where `x` may be NaN: `NaN > 0` is false, so the
first argument `0` survives. -/
noncomputable def pymax0 : Option ℝ → ℝ
  | none => 0
  | some v => max 0 v

/-- The dictionary returned by `DemandForecaster.forecast`, restricted to
the numeric fields (dates, the model handle and the error diagnostic are
presentation data).  An upper bound is NaN (`none`) when the trailing
standard deviation is NaN. -/
structure ForecastResult where
  forecast : List ℝ
  forecast_lower : List ℝ
  forecast_upper : List (Option ℝ)
  recent_avg : Option ℝ
  forecast_avg : Option ℝ
  growth_pct : ℝ

/-- Translation of the fallback branch of `DemandForecaster.forecast`
(the `except` block): trailing-30 mean and std, per-day values
`max(0, normal(mean, std*0.2))`, bounds `max(0, v − std)` and `v + std`,
forecast_avg = recent_avg and growth_pct = 0.0. -/
noncomputable def fallback (hist : List ℝ) (g : ℕ → ℝ) (periods : ℕ) : ForecastResult :=
  let recent := lastN 30 hist
  let recent_avg := rmeanO recent
  let std_dev := rstdO recent
  let values := (List.range periods).map fun i =>
    pymax0 (recent_avg.bind fun μ => std_dev.map fun σ => μ + σ * (1/5) * g i)
  { forecast := values
    forecast_lower := values.map fun v => pymax0 (std_dev.map fun σ => v - σ)
    forecast_upper := values.map fun v => std_dev.map fun σ => v + σ
    recent_avg := recent_avg
    forecast_avg := recent_avg
    growth_pct := 0 }

/-- Translation of the `try/except` dispatch of
`DemandForecaster.forecast`: a primary (Prophet) outcome if the library
succeeded, the fallback otherwise. -/
noncomputable def forecast (primary : Option ForecastResult)
    (hist : List ℝ) (g : ℕ → ℝ) (periods : ℕ) : ForecastResult :=
  match primary with
  | some r => r
  | none => fallback hist g periods

/-- Sales history 0, 2, 4: trailing mean 2, trailing sample std 2. -/
noncomputable def exHist : List ℝ := [0, 2, 4]

/-- A fixed draw of the underlying standard normal sequence. -/
noncomputable def exNoise : ℕ → ℝ := fun _ => 5

end Forecasting

namespace Synergy

/-! ## models/synergy_analyzer.py

The dataset is taken after the pivot step: one `(product name, aligned
daily sales)` column per product, missing values already filled with 0.
pandas `corr` on a pair of columns is the Pearson correlation; on a
constant column its zero denominator gives NaN, which — like the real
division by zero in Lean — fails the `|corr| > 0.6` test, so the
behaviour on degenerate columns agrees. -/

/-- Deviations from the mean. -/
noncomputable def devs (xs : List ℝ) : List ℝ := xs.map fun x => x - rmean xs

/-- Pearson correlation of two aligned series, as computed by
`pivot_data.corr()` and `Series.corr`. -/
noncomputable def pearson (xs ys : List ℝ) : ℝ :=
  (List.zipWith (· * ·) (devs xs) (devs ys)).sum /
    Real.sqrt (((devs xs).map fun d => d ^ 2).sum * (((devs ys).map fun d => d ^ 2).sum))

/-- Fraction of days on which both products had nonzero (positive) sales:
`((sales1 > 0) & (sales2 > 0)).sum() / total_days`, 0 when there are no
days. -/
noncomputable def co_purchase_prob (xs ys : List ℝ) : ℝ :=
  if xs.length = 0 then 0
  else ((List.zipWith (fun a b => if 0 < a ∧ 0 < b then (1:ℝ) else 0) xs ys).sum) / xs.length

/-- Translation of `SynergyAnalyzer._calculate_synergy_score`:
0.6 × co-occurrence + 0.4 × |correlation|. -/
noncomputable def calculate_synergy_score (xs ys : List ℝ) : ℝ :=
  co_purchase_prob xs ys * (6/10) + |pearson xs ys| * (4/10)

/-- One retained synergy entry (the redundant `product_pair` display
string is omitted). -/
structure SynergyPair where
  product1 : String
  product2 : String
  correlation : ℝ
  synergy_score : ℝ
  relationship : String
  expected_lift : ℝ

/-- One product column: name and aligned daily sales. -/
abbrev Column := String × List ℝ

/-- The entry appended for a pair that passed both thresholds. -/
noncomputable def mkPair (a b : Column) : SynergyPair :=
  let corr := pearson a.2 b.2
  let score := calculate_synergy_score a.2 b.2
  { product1 := a.1
    product2 := b.1
    correlation := corr
    synergy_score := score
    relationship := if corr > 0 then "complementary" else "substitute"
    expected_lift := score * 100 }

/-- All unordered pairs (i, j) with i < j, in the column order of the
pivoted frame, as enumerated by the double loop of the source. -/
def upperPairs : List α → List (α × α)
  | [] => []
  | x :: xs => (xs.map fun y => (x, y)) ++ upperPairs xs

/-- Translation of the retention-and-sort part of
`SynergyAnalyzer.analyze_product_synergies`: pairs with
|correlation| > 0.6 and synergy_score > 0.7, sorted descending by
synergy_score (Python's stable sort with reverse=True). -/
noncomputable def analyze_product_synergies (pivot : List Column) : List SynergyPair :=
  ((upperPairs pivot).filterMap fun p =>
    if |pearson p.1.2 p.2.2| > 6/10 then
      (if calculate_synergy_score p.1.2 p.2.2 > 7/10 then some (mkPair p.1 p.2) else none)
    else none).mergeSort fun a b => decide (b.synergy_score ≤ a.synergy_score)

/-- Translation of the per-partner effect estimate inside
`SynergyAnalyzer._predict_ripple_effects` (lines 170-175):
trend × correlation × 0.5 for complementary pairs and
trend × correlation × −0.3 for substitute pairs. -/
noncomputable def ripple_effect (s : SynergyPair) (trend : ℝ) : ℝ :=
  if s.relationship = "complementary" then trend * s.correlation * (1/2)
  else trend * s.correlation * (-(3/10))

/-- Two identical columns with positive sales every day. -/
noncomputable def identicalDS : List Column := [("A", [1, 2, 3]), ("B", [1, 2, 3])]

/-- Two perfectly anti-correlated columns with positive sales every day:
correlation −1, co-occurrence 1, synergy score 1, substitute pair. -/
noncomputable def substituteDS : List Column := [("A", [1, 2, 3]), ("B", [3, 2, 1])]

end Synergy

end RetailMind

namespace RetailMind

open RiskEngine

@[simp] theorem lastN_nil (n : ℕ) : lastN n ([] : List α) = [] := by
  simp [lastN]

theorem lastN_length_self (xs : List α) : lastN xs.length xs = xs := by
  simp [lastN]

/-- C6: trend_7d computed by the code equals the specified value for every
window: percent change of the mean over the last 7 points versus the
preceding 7 points; last N versus first N of the window when fewer than
14 points are available; 0 whenever the baseline mean is 0. -/
theorem trend7d_matches_spec (w : List ℚ) :
    RiskEngine.calculate_trend 7 w = RiskEngine.trend7Spec w := by
  unfold RiskEngine.calculate_trend RiskEngine.trend7Spec
  rcases lt_or_le w.length 7 with h7 | h7
  · -- fewer than 7 points: the code returns 0, the spec compares the whole
    -- window with itself, which also yields 0.
    have h14 : w.length < 14 := by omega
    have hn : min 7 w.length = w.length := by omega
    simp only [if_pos h7, if_pos h14, hn, List.take_length, lastN_length_self]
    split
    · rfl
    · rename_i hne
      rw [sub_self, zero_div, zero_mul]
  · rcases lt_or_le w.length 14 with h14 | h14
    · -- 7 ≤ length < 14: both compare the last 7 with the first 7.
      have h2 : ¬ (2 * 7 ≤ w.length) := by omega
      have hn : min 7 w.length = 7 := by omega
      have hne : w.take 7 ≠ [] := by
        refine List.length_pos.mp ?_
        rw [List.length_take]
        omega
      simp only [if_neg (not_lt.mpr h7), if_pos h14, hn, if_neg h2]
      split
      · rename_i hc
        rcases hc with hc | hc
        · exact absurd hc hne
        · rw [if_pos hc]
      · rename_i hc
        push_neg at hc
        rw [if_neg hc.2]
    · -- at least 14 points: both compare the last 7 with the preceding 7.
      have h2 : 2 * 7 ≤ w.length := by omega
      have hne : (w.drop (w.length - 2 * 7)).take 7 ≠ [] := by
        refine List.length_pos.mp ?_
        rw [List.length_take, List.length_drop]
        omega
      have harith : w.length - 14 = w.length - 2 * 7 := by omega
      simp only [if_neg (not_lt.mpr h7), if_neg (not_lt.mpr h14), if_pos h2, harith]
      split
      · rename_i hc
        rcases hc with hc | hc
        · exact absurd hc hne
        · rw [if_pos hc]
      · rename_i hc
        push_neg at hc
        rw [if_neg hc.2]

/-- C2: for every metrics record and forecast growth value the classifier
evaluates exactly the five specified rules in the specified order over the
computed risk and opportunity scores, assigning the stated category and
priority. -/
theorem classify_matches_spec_rules (m : RiskEngine.Metrics) (g : ℚ) :
    (RiskEngine.classify_product_v2 m g).category =
      RiskEngine.specCategory (RiskEngine.risk_score m) (RiskEngine.opportunity_score m g) ∧
    (RiskEngine.classify_product_v2 m g).priority =
      RiskEngine.specPriority (RiskEngine.risk_score m) (RiskEngine.opportunity_score m g) ∧
    (RiskEngine.classify_product_v2 m g).risk_score = RiskEngine.risk_score m ∧
    (RiskEngine.classify_product_v2 m g).opportunity_score =
      RiskEngine.opportunity_score m g := by
  refine ⟨?_, ?_, rfl, rfl⟩ <;>
    simp only [RiskEngine.classify_product_v2, RiskEngine.specCategory,
      RiskEngine.specPriority, ge_iff_le, gt_iff_lt]

theorem highRiskMetrics_risk_score : RiskEngine.risk_score highRiskMetrics = 65 := by
  norm_num [RiskEngine.risk_score, highRiskMetrics]

theorem highRiskMetrics_opp_score : RiskEngine.opportunity_score highRiskMetrics 0 = 0 := by
  norm_num [RiskEngine.opportunity_score, highRiskMetrics]

theorem highRiskMetrics_category :
    (RiskEngine.classify_product_v2 highRiskMetrics 0).category = "HIGH RISK" := by
  simp only [RiskEngine.classify_product_v2, highRiskMetrics_risk_score,
    highRiskMetrics_opp_score]
  norm_num

theorem highRiskMetrics_action :
    RiskEngine.get_recommended_action "HIGH RISK" highRiskMetrics =
      "Discount by 15-20% to clear 6 excess units" := by
  have hmax : max (0:ℚ) (highRiskMetrics.days_of_stock - 14) = 6 := by
    norm_num [highRiskMetrics]
  have hfig : pytrunc (max (0:ℚ) (highRiskMetrics.days_of_stock - 14)) = 6 := by
    rw [hmax]
    norm_num [pytrunc]
  simp only [RiskEngine.get_recommended_action, RiskEngine.actions, if_pos, hfig]
  rfl

/-- C5 counterexample: at a concrete HIGH RISK metrics record with
current_avg = 10 and days_of_stock = 20 the action string interpolates
int(max(0, days_of_stock − 14)) = 6, not
current_avg × max(0, days_of_stock − 14) = 60 as the claim states. -/
theorem high_risk_action_cex :
    (RiskEngine.classify_product_v2 highRiskMetrics 0).category = "HIGH RISK" ∧
    highRiskMetrics.current_avg * max 0 (highRiskMetrics.days_of_stock - 14) = 60 ∧
    (RiskEngine.classify_product_v2 highRiskMetrics 0).recommended_action =
      "Discount by 15-20% to clear 6 excess units" ∧
    (RiskEngine.classify_product_v2 highRiskMetrics 0).recommended_action ≠
      "Discount by 15-20% to clear 60 excess units" := by
  have hproj : (RiskEngine.classify_product_v2 highRiskMetrics 0).recommended_action =
      RiskEngine.get_recommended_action
        ((RiskEngine.classify_product_v2 highRiskMetrics 0).category) highRiskMetrics := rfl
  refine ⟨highRiskMetrics_category, by norm_num [highRiskMetrics], ?_, ?_⟩ <;>
      rw [hproj, highRiskMetrics_category, highRiskMetrics_action]
  decide

/-- C5 (amended): whenever the classification category is HIGH RISK, the
recommended_action string interpolates the excess-units figure
int(max(0, days_of_stock − 14)) — without a current_avg factor. -/
theorem high_risk_action_interpolation (m : RiskEngine.Metrics) (g : ℚ)
    (h : (RiskEngine.classify_product_v2 m g).category = "HIGH RISK") :
    (RiskEngine.classify_product_v2 m g).recommended_action =
      "Discount by 15-20% to clear " ++
        toString (pytrunc (max 0 (m.days_of_stock - 14))) ++ " excess units" := by
  have hproj : (RiskEngine.classify_product_v2 m g).recommended_action =
      RiskEngine.get_recommended_action
        ((RiskEngine.classify_product_v2 m g).category) m := rfl
  rw [hproj, h]
  rfl

/-- Witness for C5: the amended theorem applied to the concrete HIGH RISK
metrics record. -/
theorem high_risk_action_interpolation_witness :
    (RiskEngine.classify_product_v2 highRiskMetrics 0).recommended_action =
      "Discount by 15-20% to clear " ++
        toString (pytrunc (max 0 (highRiskMetrics.days_of_stock - 14))) ++
        " excess units" :=
  high_risk_action_interpolation highRiskMetrics 0 highRiskMetrics_category

/-- C3: contrary to the claim, the divisions of `simulate_price_change` and
`simulate_inventory_change` are not guarded.  With current_price = 0, or
with current_demand = 0 (zero current revenue), or with
current_stock_days = 0, the Python code performs a division by zero and
raises; the embedded model returns `none` at exactly those divisions. -/
theorem simulator_zero_division_raises :
    Simulator.simulate_price_change "Milk" 0 1 10 12 = none ∧
    Simulator.simulate_price_change "Milk" 2 3 0 12 = none ∧
    Simulator.simulate_inventory_change "Milk" 0 5 10 = none := by
  refine ⟨?_, ?_, ?_⟩ <;>
    norm_num [Simulator.simulate_price_change, Simulator.simulate_inventory_change,
      Simulator.pydiv]

/-- Algebraic core of the promotion ROI: with a nonzero unit volume value K
and a positive discount d, (0.3·K − K·d/100)/(K·d/100)·100 = 3000/d − 100. -/
theorem promo_roi_aux (K d : ℚ) (hK : K ≠ 0) (hd : 0 < d) :
    (K * (3/10) - K * (d/100)) / (K * (d/100)) * 100 = 3000 / d - 100 := by
  have hd' : d ≠ 0 := ne_of_gt hd
  field_simp
  ring

/-- C10: for positive current demand, duration and discount, the promotion
ROI equals 3000/discount_pct − 100, independently of the product, the
demands, the duration and the reference price, so RUN is recommended
exactly when discount_pct < 3000/130; and with zero current demand or
zero discount the promotion cost is 0, the ROI is 0 and the
recommendation is AVOID. -/
theorem promotion_roi_discount_only (product : String)
    (discount_pct duration_days current_demand forecast_demand : ℚ) :
    (0 < current_demand → 0 < duration_days → 0 < discount_pct →
      (Simulator.simulate_promotion product discount_pct duration_days
          current_demand forecast_demand).roi_pct = 3000 / discount_pct - 100 ∧
      ((Simulator.simulate_promotion product discount_pct duration_days
          current_demand forecast_demand).recommendation = "RUN" ↔
        discount_pct < 3000 / 130)) ∧
    ((current_demand = 0 ∨ discount_pct = 0) →
      (Simulator.simulate_promotion product discount_pct duration_days
          current_demand forecast_demand).promotion_cost = 0 ∧
      (Simulator.simulate_promotion product discount_pct duration_days
          current_demand forecast_demand).roi_pct = 0 ∧
      (Simulator.simulate_promotion product discount_pct duration_days
          current_demand forecast_demand).recommendation = "AVOID") := by
  simp only [Simulator.simulate_promotion]
  constructor
  · intro hdem hdur hd
    have hA : 0 < (current_demand * (1 + (20 + discount_pct * (4/5)) / 100)
        - current_demand) * duration_days := by
      have h : current_demand * (1 + (20 + discount_pct * (4/5)) / 100)
          - current_demand
          = current_demand * ((20 + discount_pct * (4/5)) / 100) := by ring
      rw [h]
      have hL : (0:ℚ) < (20 + discount_pct * (4/5)) / 100 := by positivity
      positivity
    have hcost : 0 < (current_demand * (1 + (20 + discount_pct * (4/5)) / 100)
        - current_demand) * duration_days * (299/100) * (discount_pct/100) := by
      positivity
    have hroi : (if (current_demand * (1 + (20 + discount_pct * (4/5)) / 100)
          - current_demand) * duration_days * (299/100) * (discount_pct/100) > 0 then
            ((current_demand * (1 + (20 + discount_pct * (4/5)) / 100)
                - current_demand) * duration_days * (299/100) * (3/10)
              - (current_demand * (1 + (20 + discount_pct * (4/5)) / 100)
                - current_demand) * duration_days * (299/100) * (discount_pct/100))
            / ((current_demand * (1 + (20 + discount_pct * (4/5)) / 100)
                - current_demand) * duration_days * (299/100) * (discount_pct/100))
            * 100
          else 0) = 3000 / discount_pct - 100 := by
      rw [if_pos hcost]
      have hKne : (current_demand * (1 + (20 + discount_pct * (4/5)) / 100)
          - current_demand) * duration_days * (299/100) ≠ 0 := by
        exact ne_of_gt (by positivity)
      exact promo_roi_aux _ discount_pct hKne hd
    rw [hroi]
    refine ⟨rfl, ?_⟩
    have hiff : (3000 / discount_pct - 100 > 30) ↔ discount_pct < 3000 / 130 := by
      rw [gt_iff_lt, lt_sub_iff_add_lt, lt_div_iff₀ hd,
        lt_div_iff₀ (show (0:ℚ) < 130 by norm_num)]
      constructor <;> intro <;> linarith
    by_cases hrun : 3000 / discount_pct - 100 > 30
    · rw [if_pos hrun]
      exact iff_of_true rfl (hiff.mp hrun)
    · rw [if_neg hrun]
      refine iff_of_false ?_ (fun hc => hrun (hiff.mpr hc))
      split_ifs <;> decide
  · intro h
    have hc0 : (current_demand * (1 + (20 + discount_pct * (4/5)) / 100)
        - current_demand) * duration_days * (299/100) * (discount_pct/100) = 0 := by
      rcases h with h | h <;> rw [h] <;> ring
    have hnot : ¬ ((current_demand * (1 + (20 + discount_pct * (4/5)) / 100)
        - current_demand) * duration_days * (299/100) * (discount_pct/100) > 0) := by
      rw [hc0]
      exact lt_irrefl 0
    refine ⟨hc0, by rw [if_neg hnot], ?_⟩
    rw [if_neg hnot]
    norm_num

/-- C1: the forecast dispatch never raises — any failure of the primary
Prophet path selects the translated fallback, which is a total function;
and on an empty history the trailing mean and std are NaN, every
perturbed sample is NaN, and Python max(0, NaN) = 0 makes every per-day
forecast value exactly 0. -/
theorem forecast_fallback_never_raises (primary : Option Forecasting.ForecastResult)
    (hist : List ℝ) (g : ℕ → ℝ) (periods : ℕ) (hfail : primary = none) :
    Forecasting.forecast primary hist g periods = Forecasting.fallback hist g periods ∧
    (hist = [] →
      (Forecasting.forecast primary hist g periods).forecast =
        List.replicate periods 0) := by
  subst hfail
  refine ⟨rfl, ?_⟩
  intro hnil
  subst hnil
  show (Forecasting.fallback [] g periods).forecast = _
  simp [Forecasting.fallback, Forecasting.rmeanO, Forecasting.pymax0,
    List.map_const']

/-- Witness for C1: failure of the primary path on the empty history, with
three forecast days and an arbitrary noise draw. -/
theorem forecast_fallback_never_raises_witness :
    Forecasting.forecast none [] (fun _ => 1) 3 = Forecasting.fallback [] (fun _ => 1) 3 ∧
    (Forecasting.forecast none [] (fun _ => 1) 3).forecast = List.replicate 3 0 :=
  ⟨(forecast_fallback_never_raises none [] (fun _ => 1) 3 rfl).1,
   (forecast_fallback_never_raises none [] (fun _ => 1) 3 rfl).2 rfl⟩

theorem exHist_window : lastN 30 Forecasting.exHist = Forecasting.exHist := by
  simp [lastN, Forecasting.exHist]

theorem exHist_mean : rmean Forecasting.exHist = 2 := by
  norm_num [rmean, Forecasting.exHist]

theorem exHist_std : rsampleStd Forecasting.exHist = 2 := by
  have hv : rsampleVar Forecasting.exHist = 4 := by
    norm_num [rsampleVar, rmean, Forecasting.exHist]
  rw [rsampleStd, hv, show (4:ℝ) = 2 ^ 2 by norm_num,
    Real.sqrt_sq (by norm_num : (0:ℝ) ≤ 2)]

/-- C7 counterexample: on the history 0, 2, 4 (trailing mean 2, trailing
std 2) with noise draw 5, the per-day value is max(0, 2 + 2·0.2·5) = 4
and the code produces lower bound max(0, 4 − 2) = 2, whereas the claim
says the lower bound is max(0, mean − std) = max(0, 2 − 2) = 0. -/
theorem fallback_bounds_cex :
    Forecasting.rmeanO (lastN 30 Forecasting.exHist) = some 2 ∧
    Forecasting.rstdO (lastN 30 Forecasting.exHist) = some 2 ∧
    (Forecasting.fallback Forecasting.exHist Forecasting.exNoise 1).forecast_lower = [2] ∧
    max (0:ℝ) (2 - 2) = 0 ∧ (2:ℝ) ≠ 0 := by
  have hm : Forecasting.rmeanO (lastN 30 Forecasting.exHist) = some 2 := by
    rw [exHist_window, Forecasting.rmeanO,
      if_neg (by simp [Forecasting.exHist]), exHist_mean]
  have hs : Forecasting.rstdO (lastN 30 Forecasting.exHist) = some 2 := by
    rw [exHist_window, Forecasting.rstdO,
      if_neg (by simp [Forecasting.exHist]), exHist_std]
  refine ⟨hm, hs, ?_, by norm_num, by norm_num⟩
  simp [Forecasting.fallback, hm, hs, Forecasting.pymax0,
    List.range_succ, Forecasting.exNoise]

/-- C7 (amended): over a trailing window of at least two points the
fallback returns growth_percent 0, per-day values
max(0, mean + 0.2·std·gᵢ), and bounds centered on the per-day perturbed
value — lower = max(0, value − std), upper = value + std — not on the
mean. -/
theorem fallback_bounds_center_on_value (hist : List ℝ) (g : ℕ → ℝ) (periods : ℕ)
    (h2 : 2 ≤ (lastN 30 hist).length) :
    (Forecasting.fallback hist g periods).growth_pct = 0 ∧
    (Forecasting.fallback hist g periods).forecast =
      (List.range periods).map (fun i =>
        max 0 (rmean (lastN 30 hist) + rsampleStd (lastN 30 hist) * (1/5) * g i)) ∧
    (Forecasting.fallback hist g periods).forecast_lower =
      (Forecasting.fallback hist g periods).forecast.map
        (fun v => max 0 (v - rsampleStd (lastN 30 hist))) ∧
    (Forecasting.fallback hist g periods).forecast_upper =
      (Forecasting.fallback hist g periods).forecast.map
        (fun v => some (v + rsampleStd (lastN 30 hist))) := by
  have hne : lastN 30 hist ≠ [] := by
    intro h
    rw [h] at h2
    simp at h2
  have hm : Forecasting.rmeanO (lastN 30 hist) = some (rmean (lastN 30 hist)) := by
    rw [Forecasting.rmeanO, if_neg hne]
  have hs : Forecasting.rstdO (lastN 30 hist) = some (rsampleStd (lastN 30 hist)) := by
    rw [Forecasting.rstdO, if_neg (by omega)]
  simp [Forecasting.fallback, hm, hs, Forecasting.pymax0]

/-- Witness for C7: the amended theorem evaluated on the three-point
history. -/
theorem fallback_bounds_center_on_value_witness :
    (Forecasting.fallback Forecasting.exHist Forecasting.exNoise 1).growth_pct = 0 ∧
    (Forecasting.fallback Forecasting.exHist Forecasting.exNoise 1).forecast_lower =
      (Forecasting.fallback Forecasting.exHist Forecasting.exNoise 1).forecast.map
        (fun v => max 0 (v - rsampleStd (lastN 30 Forecasting.exHist))) := by
  have h := fallback_bounds_center_on_value Forecasting.exHist Forecasting.exNoise 1
    (by simp [lastN, Forecasting.exHist])
  exact ⟨h.1, h.2.2.1⟩

/-- C4 counterexample: on a window with all-zero sales and zero inventory
the code returns 0 (its zero-mean guard), while the claimed formula
clamp(0.5 − 0.2·z, 0, 1) evaluates to 0.5. -/
theorem stockout_risk_zero_sales_cex :
    RiskEngine.calculate_stockout_risk RiskEngine.zeroWindow = 0 ∧
    RiskEngine.stockoutSpecFormula RiskEngine.zeroWindow = 1/2 := by
  have hm : rmean (RiskEngine.salesR RiskEngine.zeroWindow) = 0 := by
    norm_num [rmean, RiskEngine.salesR, RiskEngine.zeroWindow, List.replicate]
  have hi : rmean (RiskEngine.invR RiskEngine.zeroWindow) = 0 := by
    norm_num [rmean, RiskEngine.invR, RiskEngine.zeroWindow, List.replicate]
  constructor
  · simp [RiskEngine.calculate_stockout_risk, hm]
  · rw [RiskEngine.stockoutSpecFormula]
    rw [hm, hi]
    norm_num

/-- C4 (amended): on windows of length ≥ 2 (pandas std is NaN below that),
the stockout risk equals the clamp formula whenever the sales mean is
nonzero, but is 0 — not the formula value — when the sales mean is 0. -/
theorem stockout_risk_formula (w : List RiskEngine.Row) (h2 : 2 ≤ w.length) :
    (rmean (RiskEngine.salesR w) = 0 → RiskEngine.calculate_stockout_risk w = 0) ∧
    (rmean (RiskEngine.salesR w) ≠ 0 →
      RiskEngine.calculate_stockout_risk w = RiskEngine.stockoutSpecFormula w) := by
  constructor
  · intro h
    simp [RiskEngine.calculate_stockout_risk, h]
  · intro h
    simp [RiskEngine.calculate_stockout_risk, RiskEngine.stockoutSpecFormula, h]

/-- Witness for C4: the amended theorem on the window with sales 0, 2, 4
(mean 2 ≠ 0). -/
theorem stockout_risk_formula_witness :
    RiskEngine.calculate_stockout_risk RiskEngine.stdWindow =
      RiskEngine.stockoutSpecFormula RiskEngine.stdWindow :=
  (stockout_risk_formula RiskEngine.stdWindow (by norm_num [RiskEngine.stdWindow])).2
    (by norm_num [rmean, RiskEngine.salesR, RiskEngine.stdWindow])

/-- Membership in the analyzer output: exactly the upper-triangle pairs
that pass both the correlation and the synergy-score threshold. -/
theorem mem_analyze_iff (pivot : List Synergy.Column) (s : Synergy.SynergyPair) :
    s ∈ Synergy.analyze_product_synergies pivot ↔
      ∃ p ∈ Synergy.upperPairs pivot,
        |Synergy.pearson p.1.2 p.2.2| > 6/10 ∧
        Synergy.calculate_synergy_score p.1.2 p.2.2 > 7/10 ∧
        s = Synergy.mkPair p.1 p.2 := by
  rw [Synergy.analyze_product_synergies, List.mem_mergeSort, List.mem_filterMap]
  constructor
  · rintro ⟨p, hp, hsome⟩
    by_cases h1 : |Synergy.pearson p.1.2 p.2.2| > 6/10
    · rw [if_pos h1] at hsome
      by_cases h2 : Synergy.calculate_synergy_score p.1.2 p.2.2 > 7/10
      · rw [if_pos h2] at hsome
        exact ⟨p, hp, h1, h2, (Option.some_inj.mp hsome).symm⟩
      · rw [if_neg h2] at hsome
        exact Option.noConfusion hsome
    · rw [if_neg h1] at hsome
      exact Option.noConfusion hsome
  · rintro ⟨p, hp, h1, h2, rfl⟩
    exact ⟨p, hp, by rw [if_pos h1, if_pos h2]⟩

/-- The analyzer output is sorted descending by synergy score. -/
theorem analyze_sorted (pivot : List Synergy.Column) :
    List.Pairwise (fun a b : Synergy.SynergyPair => b.synergy_score ≤ a.synergy_score)
      (Synergy.analyze_product_synergies pivot) := by
  refine List.Pairwise.imp (fun h => of_decide_eq_true h) (List.sorted_mergeSort ?_ ?_ _)
  · intro a b c hab hbc
    rw [decide_eq_true_eq] at *
    exact le_trans hbc hab
  · intro a b
    rw [Bool.or_eq_true, decide_eq_true_eq, decide_eq_true_eq]
    exact le_total _ _

theorem pearson_identical : Synergy.pearson [1, 2, 3] [1, 2, 3] = 1 := by
  have hm : rmean [1, 2, 3] = 2 := by norm_num [rmean]
  have hd : Synergy.devs [1, 2, 3] = [-1, 0, 1] := by
    rw [Synergy.devs, hm]
    norm_num
  rw [Synergy.pearson, hd]
  norm_num
  rw [show (4:ℝ) = 2 ^ 2 by norm_num, Real.sqrt_sq (by norm_num : (0:ℝ) ≤ 2)]
  norm_num

theorem pearson_substitute : Synergy.pearson [1, 2, 3] [3, 2, 1] = -1 := by
  have hm1 : rmean [1, 2, 3] = 2 := by norm_num [rmean]
  have hm2 : rmean [3, 2, 1] = 2 := by norm_num [rmean]
  have hd1 : Synergy.devs [1, 2, 3] = [-1, 0, 1] := by
    rw [Synergy.devs, hm1]
    norm_num
  have hd2 : Synergy.devs [3, 2, 1] = [1, 0, -1] := by
    rw [Synergy.devs, hm2]
    norm_num
  rw [Synergy.pearson, hd1, hd2]
  norm_num
  rw [show (4:ℝ) = 2 ^ 2 by norm_num, Real.sqrt_sq (by norm_num : (0:ℝ) ≤ 2)]
  norm_num

theorem co_identical : Synergy.co_purchase_prob [1, 2, 3] [1, 2, 3] = 1 := by
  norm_num [Synergy.co_purchase_prob]

theorem co_substitute : Synergy.co_purchase_prob [1, 2, 3] [3, 2, 1] = 1 := by
  norm_num [Synergy.co_purchase_prob]

theorem score_identical : Synergy.calculate_synergy_score [1, 2, 3] [1, 2, 3] = 1 := by
  rw [Synergy.calculate_synergy_score, co_identical, pearson_identical]
  norm_num

theorem score_substitute : Synergy.calculate_synergy_score [1, 2, 3] [3, 2, 1] = 1 := by
  rw [Synergy.calculate_synergy_score, co_substitute, pearson_substitute]
  norm_num

theorem mkPair_substitute_fields :
    (Synergy.mkPair ("A", [1, 2, 3]) ("B", [3, 2, 1])).correlation = -1 ∧
    (Synergy.mkPair ("A", [1, 2, 3]) ("B", [3, 2, 1])).synergy_score = 1 ∧
    (Synergy.mkPair ("A", [1, 2, 3]) ("B", [3, 2, 1])).relationship = "substitute" := by
  refine ⟨?_, ?_, ?_⟩ <;>
    simp [Synergy.mkPair, pearson_substitute, score_substitute]

theorem mem_analyze_substitute :
    Synergy.mkPair ("A", [1, 2, 3]) ("B", [3, 2, 1]) ∈
      Synergy.analyze_product_synergies Synergy.substituteDS := by
  refine (mem_analyze_iff _ _).mpr
    ⟨(("A", [1, 2, 3]), ("B", [3, 2, 1])), ?_, ?_, ?_, rfl⟩
  · simp [Synergy.upperPairs, Synergy.substituteDS]
  · rw [pearson_substitute]
    norm_num
  · rw [score_substitute]
    norm_num

/-- C8: a pair is retained exactly when |correlation| > 0.6 and
synergy_score > 0.7, the retained list is sorted descending by
synergy_score, and two identical all-positive series yield a retained
complementary pair with correlation 1, synergy_score exactly 1 and
expected_lift 100. -/
theorem synergy_retention_and_sorting :
    (∀ pivot : List Synergy.Column,
      List.Pairwise (fun a b : Synergy.SynergyPair => b.synergy_score ≤ a.synergy_score)
        (Synergy.analyze_product_synergies pivot) ∧
      ∀ s, s ∈ Synergy.analyze_product_synergies pivot ↔
        ∃ p ∈ Synergy.upperPairs pivot,
          |Synergy.pearson p.1.2 p.2.2| > 6/10 ∧
          Synergy.calculate_synergy_score p.1.2 p.2.2 > 7/10 ∧
          s = Synergy.mkPair p.1 p.2) ∧
    (∃ s ∈ Synergy.analyze_product_synergies Synergy.identicalDS,
      s.correlation = 1 ∧ s.synergy_score = 1 ∧
      s.relationship = "complementary" ∧ s.expected_lift = 100) := by
  refine ⟨fun pivot => ⟨analyze_sorted pivot, fun s => mem_analyze_iff pivot s⟩, ?_⟩
  refine ⟨Synergy.mkPair ("A", [1, 2, 3]) ("B", [1, 2, 3]), ?_, ?_, ?_, ?_, ?_⟩
  · refine (mem_analyze_iff _ _).mpr
      ⟨(("A", [1, 2, 3]), ("B", [1, 2, 3])), ?_, ?_, ?_, rfl⟩
    · simp [Synergy.upperPairs, Synergy.identicalDS]
    · rw [pearson_identical]
      norm_num
    · rw [score_identical]
      norm_num
  · exact pearson_identical
  · exact score_identical
  · simp [Synergy.mkPair, pearson_identical]
  · show Synergy.calculate_synergy_score [1, 2, 3] [1, 2, 3] * 100 = 100
    rw [score_identical]
    norm_num

/-- C9 counterexample: the pair of anti-correlated series (correlation −1)
is retained and classified substitute; with trigger trend 20 (> 10) the
code projects ripple 20 × (−1) × (−0.3) = 6, which is positive — the
same sign as the trend, not the opposite sign the claim states. -/
theorem substitute_ripple_cex :
    Synergy.mkPair ("A", [1, 2, 3]) ("B", [3, 2, 1]) ∈
      Synergy.analyze_product_synergies Synergy.substituteDS ∧
    (Synergy.mkPair ("A", [1, 2, 3]) ("B", [3, 2, 1])).relationship = "substitute" ∧
    Synergy.ripple_effect (Synergy.mkPair ("A", [1, 2, 3]) ("B", [3, 2, 1])) 20 = 6 ∧
    ¬ Synergy.ripple_effect (Synergy.mkPair ("A", [1, 2, 3]) ("B", [3, 2, 1])) 20 < 0 := by
  obtain ⟨hcorr, -, hrel⟩ := mkPair_substitute_fields
  have heff : Synergy.ripple_effect (Synergy.mkPair ("A", [1, 2, 3]) ("B", [3, 2, 1])) 20 = 6 := by
    rw [Synergy.ripple_effect, if_neg (by rw [hrel]; decide), hcorr]
    norm_num
  exact ⟨mem_analyze_substitute, hrel, heff, by rw [heff]; norm_num⟩

/-- C9 (amended): for every retained substitute pair the projected ripple
equals trend × correlation × (−0.3); since retained substitutes have
correlation < −0.6, the ripple has the SAME sign as the trigger trend
(positive for trend > 10, negative for trend < −10), not the opposite
sign. -/
theorem substitute_ripple_same_sign (pivot : List Synergy.Column)
    (s : Synergy.SynergyPair)
    (hmem : s ∈ Synergy.analyze_product_synergies pivot)
    (hrel : s.relationship = "substitute") (t : ℝ) :
    Synergy.ripple_effect s t = t * s.correlation * (-(3/10)) ∧
    s.correlation < -(6/10) ∧
    (10 < t → 0 < Synergy.ripple_effect s t) ∧
    (t < -10 → Synergy.ripple_effect s t < 0) := by
  obtain ⟨p, hp, habs, hscore, hs⟩ := (mem_analyze_iff pivot s).mp hmem
  subst hs
  have hnotpos : ¬ Synergy.pearson p.1.2 p.2.2 > 0 := by
    intro hpos
    rw [show (Synergy.mkPair p.1 p.2).relationship =
        (if Synergy.pearson p.1.2 p.2.2 > 0 then "complementary" else "substitute")
      from rfl, if_pos hpos] at hrel
    exact absurd hrel (by decide)
  have hcorrval : (Synergy.mkPair p.1 p.2).correlation = Synergy.pearson p.1.2 p.2.2 := rfl
  have hcorr : Synergy.pearson p.1.2 p.2.2 < -(6/10) := by
    rw [abs_of_nonpos (not_lt.mp hnotpos)] at habs
    linarith
  have heq : Synergy.ripple_effect (Synergy.mkPair p.1 p.2) t =
      t * (Synergy.mkPair p.1 p.2).correlation * (-(3/10)) := by
    rw [Synergy.ripple_effect, if_neg (by rw [hrel]; decide)]
  refine ⟨heq, by rw [hcorrval]; exact hcorr, ?_, ?_⟩
  · intro ht
    rw [heq, hcorrval]
    exact mul_pos_of_neg_of_neg
      (mul_neg_of_pos_of_neg (by linarith) (by linarith)) (by norm_num)
  · intro ht
    rw [heq, hcorrval]
    exact mul_neg_of_pos_of_neg
      (mul_pos_of_neg_of_neg (by linarith) (by linarith)) (by norm_num)

/-- Witness for C9: the amended theorem applied to the concrete retained
substitute pair with trigger trend 20. -/
theorem substitute_ripple_same_sign_witness :
    Synergy.ripple_effect (Synergy.mkPair ("A", [1, 2, 3]) ("B", [3, 2, 1])) 20 =
      20 * (Synergy.mkPair ("A", [1, 2, 3]) ("B", [3, 2, 1])).correlation * (-(3/10)) ∧
    0 < Synergy.ripple_effect (Synergy.mkPair ("A", [1, 2, 3]) ("B", [3, 2, 1])) 20 := by
  have h := substitute_ripple_same_sign Synergy.substituteDS
    (Synergy.mkPair ("A", [1, 2, 3]) ("B", [3, 2, 1]))
    mem_analyze_substitute mkPair_substitute_fields.2.2 20
  exact ⟨h.1, h.2.2.1 (by norm_num)⟩

/-- Witness for C10: concrete evaluations through the theorem, with a 10%
discount (ROI 200, RUN) and with a zero discount (AVOID). -/
theorem promotion_roi_discount_only_witness :
    (Simulator.simulate_promotion "Milk" 10 3 5 7).roi_pct = 3000 / 10 - 100 ∧
    (Simulator.simulate_promotion "Milk" 10 3 5 7).recommendation = "RUN" ∧
    (Simulator.simulate_promotion "Milk" 0 3 5 7).recommendation = "AVOID" := by
  have h1 := (promotion_roi_discount_only "Milk" 10 3 5 7).1
    (by norm_num) (by norm_num) (by norm_num)
  have h2 := (promotion_roi_discount_only "Milk" 0 3 5 7).2 (Or.inr rfl)
  exact ⟨h1.1, h1.2.mpr (by norm_num), h2.2.2⟩

end RetailMind
